import Mathlib

/-!
Verification development for the RAG data generator (`rag_generator.py`).

The Python source is shallowly embedded: pure functions become Lean
functions over `String` / `List Char`, the generation loop becomes an
explicit step function on a run-state record driven by an oracle that
supplies the outcome of each external call (HTTP model calls, file
writes), and environment inputs (timestamps, uuids) become parameters.
Python `str` operations used by the source (`replace` with one-character
patterns, `split`, `strip`, `find`/`rfind`, `lower`, slicing) are
re-implemented over `List Char` by structural recursion so that every
definition evaluates inside the kernel.
-/

/-- The apostrophe character, written via its code point. -/
def apoc : Char := Char.ofNat 39

/-- The apostrophe as a one-character string. -/
def apoStr : String := String.singleton apoc

/-- Python whitespace for `str.strip()` / `\s` on ASCII text:
space, tab, newline, carriage return, vertical tab, form feed. -/
def pySpace (c : Char) : Bool :=
  c = ' ' || c = '\t' || c = '\n' || c = '\r' || c = '\x0b' || c = '\x0c'

/-- Python `str.strip()` on the character list. -/
def pyStripList (l : List Char) : List Char :=
  ((l.dropWhile pySpace).reverse.dropWhile pySpace).reverse

/-- Python `str.strip()`. -/
def pyStrip (s : String) : String :=
  String.mk (pyStripList s.data)

/-- Python `str.replace(old, new)` where `old` is a single character,
as used by `_escape_html`: every occurrence of the character is
replaced by the string `repl`. -/
def replaceChar (c : Char) (repl : String) (s : String) : String :=
  String.mk ((s.data.map (fun ch => if ch = c then repl.data else [ch])).flatten)

/-- Embedding of `RagGenerator._escape_html` (src lines 573-581):
empty (falsy) text maps to the empty string, otherwise the five
characters are replaced in source order, ampersand first. -/
def escapeHtml (text : String) : String :=
  if text = "" then ""
  else
    replaceChar apoc "&#x27;"
      (replaceChar '"' "&quot;"
        (replaceChar '>' "&gt;"
          (replaceChar '<' "&lt;"
            (replaceChar '&' "&amp;" text))))

/-- Splitting worker for Python `str.split(sep)` with non-empty `sep`:
scans left to right, cutting at each non-overlapping occurrence of the
pattern. Fuel-based so it is structural and kernel-evaluable; callers
pass fuel larger than the input length. -/
def splitOnAux (pat : List Char) : Nat → List Char → List Char → List (List Char)
  | 0, acc, rest => [acc.reverse ++ rest]
  | _ + 1, acc, [] => [acc.reverse]
  | fuel + 1, acc, c :: cs =>
    if pat.isPrefixOf (c :: cs) then
      acc.reverse :: splitOnAux pat fuel [] ((c :: cs).drop pat.length)
    else
      splitOnAux pat fuel (c :: acc) cs

/-- Python `s.split(pat)` for a non-empty separator. -/
def pySplit (s pat : String) : List String :=
  (splitOnAux pat.data (s.data.length + 1) [] s.data).map String.mk

/-- Python substring membership `pat in s`. -/
def listContainsAux (pat : List Char) : List Char → Bool
  | [] => pat.isEmpty
  | c :: cs => pat.isPrefixOf (c :: cs) || listContainsAux pat cs

/-- Python `pat in s` (substring containment). -/
def pyContains (s pat : String) : Bool :=
  listContainsAux pat.data s.data

/-- Worker for Python `s.split(pat, 1)`: locate the first occurrence. -/
def splitFirstAux (pat : List Char) : List Char → Option (List Char × List Char)
  | [] => none
  | c :: cs =>
    if pat.isPrefixOf (c :: cs) then some ([], (c :: cs).drop pat.length)
    else (splitFirstAux pat cs).map (fun p => (c :: p.1, p.2))

/-- Python `s.split(pat, 1)`. -/
def pySplit1 (s pat : String) : List String :=
  match splitFirstAux pat.data s.data with
  | some (a, b) => [String.mk a, String.mk b]
  | none => [s]

/-- Python `s.find(c)` for a single character: first index or -1. -/
def pyFindChar (s : String) (c : Char) : Int :=
  match s.data.findIdx? (· = c) with
  | some i => (i : Int)
  | none => -1

/-- Python `s.rfind(c)` for a single character: last index or -1. -/
def pyRFindChar (s : String) (c : Char) : Int :=
  match s.data.reverse.findIdx? (· = c) with
  | some i => ((s.data.length - 1 - i : Nat) : Int)
  | none => -1

/-- Python slice `s[a:b]` for `0 <= a`. -/
def pySlice (s : String) (a b : Nat) : String :=
  String.mk ((s.data.drop a).take (b - a))

/-- Python slice `s[:n]`. -/
def pyTake (n : Nat) (s : String) : String :=
  String.mk (s.data.take n)

/-- Python `str.lower()` on ASCII text. -/
def pyLower (s : String) : String :=
  String.mk (s.data.map Char.toLower)

/-- Python `", ".join(xs)`-style joining. -/
def joinWith (sep : String) : List String → String
  | [] => ""
  | [x] => x
  | x :: xs => x ++ sep ++ joinWith sep xs

/-- The opening curly brace character. -/
def lbraceC : Char := Char.ofNat 123

/-- The closing curly brace character. -/
def rbraceC : Char := Char.ofNat 125

/-- Outcome of the `json.loads` attempt inside `_clean_json_string`,
abstracting the JSON parser: success, a `JSONDecodeError` whose message
reports an invalid escape sequence, or any other `JSONDecodeError`. -/
inductive ParseOutcome where
  | ok
  | escapeError
  | otherError
deriving DecidableEq

/-- The strip-and-slice front half of `_clean_json_string`
(src lines 66-79): strip whitespace, then if a brace opens first (or is
the only opener) slice from it to the last closing brace when that lies
strictly later; otherwise do the same with brackets; otherwise leave
the stripped text as is. -/
def extractCandidate (s : String) : String :=
  let j := pyStrip s
  let first_brace := pyFindChar j lbraceC
  let first_bracket := pyFindChar j '['
  if first_brace ≠ -1 ∧ (first_bracket = -1 ∨ first_brace < first_bracket) then
    let last_brace := pyRFindChar j rbraceC
    if last_brace > first_brace then pySlice j first_brace.toNat (last_brace.toNat + 1) else j
  else if first_bracket ≠ -1 then
    let last_bracket := pyRFindChar j ']'
    if last_bracket > first_bracket then pySlice j first_bracket.toNat (last_bracket.toNat + 1) else j
  else j

/-- Embedding of `RagGenerator._clean_json_string` (src lines 63-112),
parameterized by the parse oracle standing for `json.loads`.  After
extraction the source tries to parse: on success it returns the
candidate; on an invalid-escape `JSONDecodeError` the repair path is a
stub that performs no change (src lines 94-108), so the candidate is
returned; on any other `JSONDecodeError` the candidate is returned as
well.  No path raises. -/
def cleanJsonString (parse : String → ParseOutcome) (s : String) : String :=
  let j := extractCandidate s
  match parse j with
  | .ok => j
  | .escapeError => j
  | .otherError => j

/-- JSON values as they occur in the stage contracts: strings and
arrays of strings (the shapes of `raw_intent` / `tags` /
`code_snippet` / `description`). -/
inductive JValue where
  | jstr (s : String)
  | jstrlist (l : List String)
deriving DecidableEq

/-- Python truthiness (`not data[key]`) for the modelled values:
a string is falsy iff empty, a list iff empty. -/
def pythonTruthy : JValue → Bool
  | .jstr s => s ≠ ""
  | .jstrlist l => l ≠ []

/-- Python `str(v)` for the modelled values: a string renders as
itself; a list of strings renders as `[...]` with each element in its
`repr` form (single-quoted; modelled for elements without embedded
quotes or escapes). -/
def pythonStr : JValue → String
  | .jstr s => s
  | .jstrlist l => "[" ++ joinWith ", " (l.map (fun x => apoStr ++ x ++ apoStr)) ++ "]"

/-- A parsed JSON object: association list from keys to values. -/
def PyDict : Type := List (String × JValue)

/-- Key lookup in a parsed JSON object (keys are unique after
`json.loads`). -/
def pyLookup (k : String) : List (String × JValue) → Option JValue
  | [] => none
  | (k2, v) :: rest => if k2 = k then some v else pyLookup k rest

/-- Embedding of `RagGenerator.validate_json` (src lines 260-266):
every required key must be present, Python-truthy, and have a
`str()` rendering that is non-empty after stripping. -/
def validateJson (data : List (String × JValue)) (keys : List String) : Bool :=
  keys.all (fun k =>
    match pyLookup k data with
    | none => false
    | some v => pythonTruthy v && pyStrip (pythonStr v) ≠ "")

/-- Fenced-code extraction at the top of `call_model_x` /
`call_model_y` (src lines 170-175): prefer the contents after a
```json fence, else the first plain fenced block, else the stripped
response. -/
def extractFenced (response : String) : String :=
  if pyContains response "```json" then
    pyStrip ((pySplit ((pySplit response "```json").getD 1 "") "```").getD 0 "")
  else if pyContains response "```" then
    pyStrip ((pySplit response "```").getD 1 "")
  else pyStrip response

/-- Derives the `_clean_json_string` parse oracle from the
`json.loads` oracle used by the caller: both stand for the same
parser, `escErr` telling whether the failure message reports an
invalid escape. -/
def parseOutcomeOf (parse : String → Option (List (String × JValue)))
    (escErr : String → Bool) (s : String) : ParseOutcome :=
  match parse s with
  | some _ => .ok
  | none => if escErr s then .escapeError else .otherError

/-- Embedding of the response-handling tail of `RagGenerator.call_model_x`
(src lines 166-187): `response` is the model-client result (`None` on
transport failure), `parse` stands for `json.loads`.  The fenced block
is extracted, cleaned, parsed, and the parsed object is returned only
when `validate_json` accepts it for keys `raw_intent` and `tags`;
every failure path yields `none`. -/
def callModelX (parse : String → Option (List (String × JValue)))
    (escErr : String → Bool) (response : Option String) :
    Option (List (String × JValue)) :=
  match response with
  | none => none
  | some r =>
    let jsonStr := extractFenced r
    let cleaned := cleanJsonString (parseOutcomeOf parse escErr) jsonStr
    match parse cleaned with
    | some data => if validateJson data ["raw_intent", "tags"] then some data else none
    | none => none

/-- Embedding of the `GeneratorConfig` dataclass (src lines 23-35),
with `delay_between_records` as a rational standing for the Python
float. -/
structure GeneratorConfig where
  max_records : Nat := 1000
  max_consecutive_failures : Nat := 3
  model_x_url : String := "http://192.168.1.29:8081"
  model_y_url : String := "http://192.168.1.29:8080"
  delay_between_records : Rat := 1
  rag_domain : String := "PHP 8 and HTML5"
  rag_focus : String := "security and performance"
  rag_constraint : String := "proprietary library constraint (e.g., \x27use the `Sanitizer::filter()` class\x27)"
  rag_skill_level : String := "senior architect"
  rag_languages : String := "PHP and/or HTML"
  web_format : Bool := false
deriving DecidableEq

/-- The engine state owned by `RagGenerator`: persisted-record count,
consecutive-failure count, and the cooperative running flag
(src lines 40-42, 637). -/
structure RunState where
  total_records : Nat
  consecutive_failures : Nat
  running : Bool
deriving DecidableEq

/-- The state right after `run()` sets `self.running = True`
(counters were zeroed in `__init__`). -/
def initState : RunState :=
  { total_records := 0, consecutive_failures := 0, running := true }

/-- Outcomes of the external calls made during one loop iteration:
whether `call_model_x` returned a dict, whether `call_model_y`
returned a dict, and the path string returned by the save routine
(empty on a save failure, src lines 281, 305). -/
structure IterOracle where
  intentOk : Bool
  solutionOk : Bool
  savePath : String

/-- The wait performed at the end of a loop iteration: the 2-second
retry backoff after a stage failure (src lines 678-681, 706-709), the
5-second backoff after an unexpected exception (src lines 762-765),
the configured inter-record delay (src lines 743-750), or no wait. -/
inductive WaitKind where
  | retryBackoff
  | unexpectedBackoff
  | interRecordDelay
  | noWait
deriving DecidableEq

/-- Duration in seconds of each wait (src: 2s, 5s, and
`config.delay_between_records`). -/
def waitDuration (cfg : GeneratorConfig) : WaitKind → Rat
  | .retryBackoff => 2
  | .unexpectedBackoff => 5
  | .interRecordDelay => cfg.delay_between_records
  | .noWait => 0

/-- Result of one loop-body execution after `call_model_x` was
invoked: the loop was left via an inner `break` on the cleared running
flag, via the consecutive-failure-limit `break`, or it proceeds to the
next iteration after the given wait. -/
inductive StepResult where
  | stopped (s : RunState)
  | aborted (s : RunState)
  | next (s : RunState) (w : WaitKind)
deriving DecidableEq

/-- The state carried by a step result. -/
def StepResult.state : StepResult → RunState
  | .stopped s => s
  | .aborted s => s
  | .next s _ => s

/-- Embedding of one execution of the loop body of `RagGenerator.run`
from the `call_model_x` call onward (src lines 663-750), with the
oracle supplying the outcomes of the two model calls and of the save.
Control flow, in source order: re-check of the running flag after the
stage-1 call (line 667); on a missing intent increment the failure
counter, break at the limit, else take the 2-second interruptible
backoff and `continue` (lines 671-684); running re-checks around the
stage-2 call (lines 686-697); the same failure contract for a missing
solution (lines 699-712); otherwise merge and save the record: a
non-empty path increments `total_records` and resets the failure
counter, an empty path increments the failure counter and breaks at
the limit (lines 714-740); a surviving iteration then performs the
interruptible inter-record delay when the engine is still running and
records remain (lines 742-750). -/
def runStep (cfg : GeneratorConfig) (o : IterOracle) (s : RunState) : StepResult :=
  if s.running = false then .stopped s
  else if o.intentOk = false then
    let f := s.consecutive_failures + 1
    if cfg.max_consecutive_failures ≤ f then .aborted { s with consecutive_failures := f }
    else if s.running = false then .stopped { s with consecutive_failures := f }
    else .next { s with consecutive_failures := f } .retryBackoff
  else if s.running = false then .stopped s
  else if s.running = false then .stopped s
  else if o.solutionOk = false then
    let f := s.consecutive_failures + 1
    if cfg.max_consecutive_failures ≤ f then .aborted { s with consecutive_failures := f }
    else if s.running = false then .stopped { s with consecutive_failures := f }
    else .next { s with consecutive_failures := f } .retryBackoff
  else if o.savePath ≠ "" then
    let s2 : RunState := { s with total_records := s.total_records + 1, consecutive_failures := 0 }
    if s2.running = true ∧ s2.total_records < cfg.max_records then .next s2 .interRecordDelay
    else .next s2 .noWait
  else
    let f := s.consecutive_failures + 1
    if cfg.max_consecutive_failures ≤ f then .aborted { s with consecutive_failures := f }
    else
      let s2 : RunState := { s with consecutive_failures := f }
      if s2.running = true ∧ s2.total_records < cfg.max_records then .next s2 .interRecordDelay
      else .next s2 .noWait

/-- Terminal outcome of the generation loop: normal exit with the
record limit reached (`Completed`), exit on the cleared running flag
(`Stopped`), exit via the consecutive-failure-limit `break`
(`Aborted`), or fuel exhaustion of the embedding, never reached by
the theorems below. -/
inductive Outcome where
  | completed
  | stopped
  | aborted
  | fuelOut
deriving DecidableEq

/-- Observable result of a loop run: final counters, the terminal
outcome, and the number of `call_model_x` invocations (stage-1
attempts) performed. -/
structure LoopResult where
  total_records : Nat
  consecutive_failures : Nat
  outcome : Outcome
  xCalls : Nat
deriving DecidableEq

/-- Embedding of the `while` loop of `RagGenerator.run`
(src lines 654-767), driven by the per-iteration oracle `orc`.  Each
pass first evaluates the loop condition
`self.running and self.total_records < self.config.max_records`, then
the body's leading running re-check (src line 659), then calls
`call_model_x` (counted in `xCalls`) and runs the rest of the body via
`runStep`.  `i` indexes the oracle, `fuel` bounds the number of
passes. -/
def runLoop (cfg : GeneratorConfig) (orc : Nat → IterOracle) :
    Nat → Nat → RunState → LoopResult
  | 0, _, s => ⟨s.total_records, s.consecutive_failures, .fuelOut, 0⟩
  | fuel + 1, i, s =>
    if s.running = false then ⟨s.total_records, s.consecutive_failures, .stopped, 0⟩
    else if cfg.max_records ≤ s.total_records then
      ⟨s.total_records, s.consecutive_failures, .completed, 0⟩
    else if s.running = false then ⟨s.total_records, s.consecutive_failures, .stopped, 0⟩
    else
      match runStep cfg (orc i) s with
      | .stopped s2 => ⟨s2.total_records, s2.consecutive_failures, .stopped, 1⟩
      | .aborted s2 => ⟨s2.total_records, s2.consecutive_failures, .aborted, 1⟩
      | .next s2 _ =>
        let r := runLoop cfg orc fuel (i + 1) s2
        { r with xCalls := r.xCalls + 1 }

/-- Python `s.strip(hyphen)`: drop leading and trailing hyphens. -/
def stripHyphens (s : String) : String :=
  String.mk (((s.data.dropWhile (· = '-')).reverse.dropWhile (· = '-')).reverse)

/-- ASCII fragment of the regex class `\w` (Python `re`, Unicode mode):
letters, digits, and the underscore. -/
def isPyWordChar (c : Char) : Bool :=
  c.isAlphanum || c = '_'

/-- Character class `[-\s]` of the collapsing regex. -/
def isHS (c : Char) : Bool :=
  c = '-' || pySpace c

/-- `re.sub(r'[-\s]+', '-', s)`: each maximal run of hyphens and
whitespace becomes a single hyphen. -/
def collapseHS : List Char → List Char
  | [] => []
  | [c] => if isHS c then ['-'] else [c]
  | c1 :: c2 :: rest =>
    if isHS c1 && isHS c2 then collapseHS (c2 :: rest)
    else (if isHS c1 then '-' else c1) :: collapseHS (c2 :: rest)

/-- The merged record as consumed by the HTML renderer: the string
fields read via `record.get(..., '')` and the tag list
(src lines 346-349). -/
structure HtmlRecord where
  raw_intent : String
  code_snippet : String
  description : String
  tags : List String
deriving DecidableEq

/-- First-sentence-or-cap title derivation shared by the two branches
of `_generate_title` (src lines 312-317): take the text before the
first dot, strip it, and ellipsize beyond 60 characters. -/
def titleFrom (text : String) : String :=
  let title := pyStrip ((pySplit text ".").getD 0 "")
  if 60 < title.data.length then pyTake 57 title ++ "..." else title

/-- Embedding of `RagGenerator._generate_title` (src lines 307-329):
derive from `raw_intent`, fall back to `description`, fall back to a
timestamp default (`now` standing for the strftime result). -/
def generateTitle (now : String) (record : HtmlRecord) : String :=
  let t1 := if record.raw_intent ≠ "" then titleFrom record.raw_intent else ""
  if t1 ≠ "" then t1
  else
    let t2 := if record.description ≠ "" then titleFrom record.description else ""
    if t2 ≠ "" then t2
    else "Solution " ++ now

/-- Embedding of `RagGenerator._create_safe_filename`
(src lines 331-341): drop every character outside `[\w\s-]`, collapse
hyphen/whitespace runs to single hyphens, cap at 50 characters,
lower-case, strip edge hyphens.  The `\w` class is modelled on its
ASCII fragment. -/
def createSafeFilename (title : String) : String :=
  let safe := String.mk (title.data.filter (fun c => isPyWordChar c || pySpace c || c = '-'))
  let safe := String.mk (collapseHS safe.data)
  let safe := if 50 < safe.data.length then pyTake 50 safe else safe
  stripHyphens (pyLower safe)

/-- `[p.strip() for p in s.split(sep) if p.strip()]`. -/
def stripParagraphs (s sep : String) : List String :=
  ((pySplit s sep).map pyStrip).filter (· ≠ "")

/-- Even-indexed (prose) part handling inside the fenced branch of
`_format_content` (src lines 596-602). -/
def formatTextPart (part : String) : String :=
  if pyStrip part ≠ "" then
    String.join ((stripParagraphs part "\n\n").map
      (fun para => "<p>" ++ escapeHtml para ++ "</p>\n"))
  else ""

/-- Odd-indexed (code) part handling inside the fenced branch of
`_format_content` (src lines 603-610): the first line is treated as a
language tag and stripped from the rendered code when a second line
exists. -/
def formatCodePart (part : String) : String :=
  if pyStrip part ≠ "" then
    let lines := pySplit1 part "\n"
    let code := if 1 < lines.length then lines.getD 1 "" else part
    "<pre><code>" ++ escapeHtml code ++ "</code></pre>\n"
  else ""

/-- The code-introducing line starters recognized by the unfenced
branch of `_format_content` (src line 622). -/
def codeStarters : List String :=
  ["<?", "<!", "import ", "def ", "function ", "class ", "const ", "let ", "var "]

/-- Python `para.startswith(tuple)`. -/
def pyStartsWithAny (para : String) (ps : List String) : Bool :=
  ps.any (fun p => p.data.isPrefixOf para.data)

/-- Embedding of `RagGenerator._format_content` (src lines 583-627). -/
def formatContent (content : String) : String :=
  if content = "" then "<p>Nessun contenuto disponibile.</p>"
  else if pyContains content "```" then
    String.join ((pySplit content "```").enum.map
      (fun ip => if ip.1 % 2 = 0 then formatTextPart ip.2 else formatCodePart ip.2))
  else
    let paragraphs := stripParagraphs content "\n\n"
    let paragraphs := if paragraphs = [] then stripParagraphs content "\n" else paragraphs
    String.join (paragraphs.map (fun para =>
      if pyStartsWithAny para codeStarters then
        "<pre><code>" ++ escapeHtml para ++ "</code></pre>\n"
      else "<p>" ++ escapeHtml para ++ "</p>\n"))

/-- The `tags_html` block of `_generate_html_page` (src lines 357-359):
each tag is interpolated into its span without any escaping. -/
def tagsHtmlOf (tags : List String) : String :=
  if tags ≠ [] then
    "<div class=\"tags\">"
      ++ String.join (tags.map (fun tag => "<span class=\"tag\">" ++ tag ++ "</span>"))
      ++ "</div>"
  else ""
def htmlTpl1 : String :=
  "<!DOCTYPE html>\n" ++
  "<html lang=\"it\">\n" ++
  "<head>\n" ++
  "    <meta charset=\"UTF-8\">\n" ++
  "    <meta name=\"viewport\" content=\"width=device-width, initial-scale=1.0\">\n" ++
  "    <meta name=\"description\" content=\""

def htmlTpl2 : String :=
  "\">\n" ++
  "    <meta name=\"keywords\" content=\""

def htmlTpl3 : String :=
  "\">\n" ++
  "    <meta name=\"author\" content=\"RAG Generator\">\n" ++
  "    <meta property=\"og:title\" content=\""

def htmlTpl4 : String :=
  "\">\n" ++
  "    <meta property=\"og:description\" content=\""

def htmlTpl5 : String :=
  "\">\n" ++
  "    <meta property=\"og:type\" content=\"article\">\n" ++
  "    <title>"

def htmlTpl6 : String :=
  "</title>\n" ++
  "    <style>\n" ++
  "        * \x7b\n" ++
  "            margin: 0;\n" ++
  "            padding: 0;\n" ++
  "            box-sizing: border-box;\n" ++
  "        \x7d\n" ++
  "        \n" ++
  "        body \x7b\n" ++
  "            font-family: -apple-system, BlinkMacSystemFont, \x27Segoe UI\x27, Roboto, \x27Helvetica Neue\x27, Arial, sans-serif;\n" ++
  "            line-height: 1.6;\n" ++
  "            color: #333;\n" ++
  "            background: linear-gradient(135deg, #667eea 0%, #764ba2 100%);\n" ++
  "            min-height: 100vh;\n" ++
  "            padding: 20px;\n" ++
  "        \x7d\n" ++
  "        \n" ++
  "        .container \x7b\n" ++
  "            max-width: 900px;\n" ++
  "            margin: 0 auto;\n" ++
  "            background: white;\n" ++
  "            border-radius: 12px;\n" ++
  "            box-shadow: 0 20px 60px rgba(0, 0, 0, 0.3);\n" ++
  "            overflow: hidden;\n" ++
  "        \x7d\n" ++
  "        \n" ++
  "        .header \x7b\n" ++
  "            background: linear-gradient(135deg, #667eea 0%, #764ba2 100%);\n" ++
  "            color: white;\n" ++
  "            padding: 40px;\n" ++
  "            text-align: center;\n" ++
  "        \x7d\n" ++
  "        \n" ++
  "        .header h1 \x7b\n" ++
  "            font-size: 2.5em;\n" ++
  "            margin-bottom: 10px;\n" ++
  "            font-weight: 700;\n" ++
  "            text-shadow: 2px 2px 4px rgba(0, 0, 0, 0.2);\n" ++
  "        \x7d\n" ++
  "        \n" ++
  "        .header .subtitle \x7b\n" ++
  "            font-size: 1.1em;\n" ++
  "            opacity: 0.95;\n" ++
  "            font-weight: 300;\n" ++
  "        \x7d\n" ++
  "        \n" ++
  "        .content \x7b\n" ++
  "            padding: 40px;\n" ++
  "        \x7d\n" ++
  "        \n" ++
  "        .intent-section \x7b\n" ++
  "            background: #f8f9fa;\n" ++
  "            border-left: 4px solid #667eea;\n" ++
  "            padding: 20px;\n" ++
  "            margin-bottom: 30px;\n" ++
  "            border-radius: 4px;\n" ++
  "        \x7d\n" ++
  "        \n" ++
  "        .intent-section h2 \x7b\n" ++
  "            color: #667eea;\n" ++
  "            margin-bottom: 10px;\n" ++
  "            font-size: 1.3em;\n" ++
  "        \x7d\n" ++
  "        \n" ++
  "        .intent-section p \x7b\n" ++
  "            color: #555;\n" ++
  "            line-height: 1.8;\n" ++
  "        \x7d\n" ++
  "        \n" ++
  "        .solution-section \x7b\n" ++
  "            margin-bottom: 30px;\n" ++
  "        \x7d\n" ++
  "        \n" ++
  "        .solution-section h2 \x7b\n" ++
  "            color: #333;\n" ++
  "            margin-bottom: 20px;\n" ++
  "            font-size: 1.8em;\n" ++
  "            border-bottom: 2px solid #667eea;\n" ++
  "            padding-bottom: 10px;\n" ++
  "        \x7d\n" ++
  "        \n" ++
  "        .solution-content \x7b\n" ++
  "            background: #fff;\n" ++
  "            border: 1px solid #e0e0e0;\n" ++
  "            border-radius: 8px;\n" ++
  "            padding: 25px;\n" ++
  "            margin-top: 15px;\n" ++
  "        \x7d\n" ++
  "        \n" ++
  "        .solution-content pre \x7b\n" ++
  "            background: #2d2d2d;\n" ++
  "            color: #f8f8f2;\n" ++
  "            padding: 20px;\n" ++
  "            border-radius: 6px;\n" ++
  "            overflow-x: auto;\n" ++
  "            font-family: \x27Courier New\x27, monospace;\n" ++
  "            font-size: 0.95em;\n" ++
  "            line-height: 1.5;\n" ++
  "            margin: 15px 0;\n" ++
  "        \x7d\n" ++
  "        \n" ++
  "        .solution-content code \x7b\n" ++
  "            background: #f4f4f4;\n" ++
  "            padding: 2px 6px;\n" ++
  "            border-radius: 3px;\n" ++
  "            font-family: \x27Courier New\x27, monospace;\n" ++
  "            font-size: 0.9em;\n" ++
  "            color: #e83e8c;\n" ++
  "        \x7d\n" ++
  "        \n" ++
  "        .solution-content p \x7b\n" ++
  "            margin-bottom: 15px;\n" ++
  "            line-height: 1.8;\n" ++
  "        \x7d\n" ++
  "        \n" ++
  "        .description-section \x7b\n" ++
  "            background: #e8f4f8;\n" ++
  "            border-left: 4px solid #17a2b8;\n" ++
  "            padding: 20px;\n" ++
  "            margin-top: 25px;\n" ++
  "            border-radius: 4px;\n" ++
  "        \x7d\n" ++
  "        \n" ++
  "        .description-section h3 \x7b\n" ++
  "            color: #17a2b8;\n" ++
  "            margin-bottom: 10px;\n" ++
  "        \x7d\n" ++
  "        \n" ++
  "        .tags \x7b\n" ++
  "            display: flex;\n" ++
  "            flex-wrap: wrap;\n" ++
  "            gap: 10px;\n" ++
  "            margin-top: 20px;\n" ++
  "        \x7d\n" ++
  "        \n" ++
  "        .tag \x7b\n" ++
  "            background: #667eea;\n" ++
  "            color: white;\n" ++
  "            padding: 6px 12px;\n" ++
  "            border-radius: 20px;\n" ++
  "            font-size: 0.85em;\n" ++
  "            font-weight: 500;\n" ++
  "        \x7d\n" ++
  "        \n" ++
  "        .footer \x7b\n" ++
  "            background: #f8f9fa;\n" ++
  "            padding: 20px;\n" ++
  "            text-align: center;\n" ++
  "            color: #666;\n" ++
  "            font-size: 0.9em;\n" ++
  "            border-top: 1px solid #e0e0e0;\n" ++
  "        \x7d\n" ++
  "        \n" ++
  "        @media (max-width: 768px) \x7b\n" ++
  "            .header h1 \x7b\n" ++
  "                font-size: 1.8em;\n" ++
  "            \x7d\n" ++
  "            \n" ++
  "            .content \x7b\n" ++
  "                padding: 20px;\n" ++
  "            \x7d\n" ++
  "            \n" ++
  "            body \x7b\n" ++
  "                padding: 10px;\n" ++
  "            \x7d\n" ++
  "        \x7d\n" ++
  "    </style>\n" ++
  "</head>\n" ++
  "<body>\n" ++
  "    <div class=\"container\">\n" ++
  "        <div class=\"header\">\n" ++
  "            <h1>"

def htmlTpl7 : String :=
  "</h1>\n" ++
  "            <div class=\"subtitle\">Soluzione Completa</div>\n" ++
  "        </div>\n" ++
  "        \n" ++
  "        <div class=\"content\">\n" ++
  "            "

def htmlTpl8 : String :=
  "\n" ++
  "            \n" ++
  "            <div class=\"solution-section\">\n" ++
  "                <h2>Soluzione</h2>\n" ++
  "                <div class=\"solution-content\">\n" ++
  "                    "

def htmlTpl9 : String :=
  "\n" ++
  "                </div>\n" ++
  "            </div>\n" ++
  "            \n" ++
  "            "

def htmlTpl10 : String :=
  "\n" ++
  "            \n" ++
  "            "

def htmlTpl11 : String :=
  "\n" ++
  "        </div>\n" ++
  "        \n" ++
  "        <div class=\"footer\">\n" ++
  "            <p>Generato il "

def htmlTpl12 : String :=
  " | RAG Generator</p>\n" ++
  "        </div>\n" ++
  "    </div>\n" ++
  "</body>\n" ++
  "</html>"

/-- Embedding of `RagGenerator._generate_html_page`
(src lines 343-571).  `htmlTpl1` … `htmlTpl12` are the literal
segments of the source f-string template (CSS braces written as their
code points); the interpolated expressions appear between them in
source order.  `nowFooter` stands for the strftime timestamp in the
footer. -/
def generateHtmlPage (nowFooter : String) (record : HtmlRecord) (title : String) : String :=
  let raw_intent := record.raw_intent
  let code_snippet := record.code_snippet
  let description := record.description
  let tags := record.tags
  let main_content := if code_snippet ≠ "" then code_snippet else description
  let main_content := if main_content = "" then raw_intent else main_content
  let tags_html := tagsHtmlOf tags
  let meta_description :=
    if description ≠ "" then pyTake 160 description
    else if raw_intent ≠ "" then pyTake 160 raw_intent
    else title
  let intentSection :=
    if raw_intent ≠ "" then
      "<div class=\"intent-section\"><h2>Requisito</h2><p>"
        ++ escapeHtml raw_intent ++ "</p></div>"
    else ""
  let descriptionSection :=
    if description ≠ "" ∧ description ≠ main_content then
      "<div class=\"description-section\"><h3>Approccio</h3><p>"
        ++ escapeHtml description ++ "</p></div>"
    else ""
  let keywords := if tags ≠ [] then joinWith ", " tags else ""
  htmlTpl1 ++ escapeHtml meta_description
    ++ htmlTpl2 ++ keywords
    ++ htmlTpl3 ++ escapeHtml title
    ++ htmlTpl4 ++ escapeHtml meta_description
    ++ htmlTpl5 ++ escapeHtml title
    ++ htmlTpl6 ++ escapeHtml title
    ++ htmlTpl7 ++ intentSection
    ++ htmlTpl8 ++ formatContent main_content
    ++ htmlTpl9 ++ descriptionSection
    ++ htmlTpl10 ++ tags_html
    ++ htmlTpl11 ++ nowFooter
    ++ htmlTpl12

/-- The object state set up by `RagGenerator.__init__`
(src lines 38-50): the stored config and zeroed counters.  The
remaining constructor statements (output-directory creation, signal
handler registration) are environment effects that do not depend on
the configuration; the constructor inspects no configuration field and
has no failure path. -/
structure RagGeneratorState where
  config : GeneratorConfig
  consecutive_failures : Nat
  total_records : Nat
  running : Bool
deriving DecidableEq

/-- Embedding of `RagGenerator.__init__` (src lines 38-50): total in
the configuration, no validation performed. -/
def ragGeneratorInit (config : GeneratorConfig) : RagGeneratorState :=
  { config := config, consecutive_failures := 0, total_records := 0,
    running := false }

/-- Embedding of `RagGeneratorUI.start_generation` (src lines
1236-1275): the UI field values are read (`max_records` and
`max_consecutive_failures` from integer fields, the delay from a float
field, the URLs stripped), checked in source order — positive record
limit, non-negative delay, non-empty URLs, non-empty domain-shaping
strings — and on success the configuration with which the engine is
constructed and the run thread started is returned; each failing check
shows an error box and returns early (`none`).  The failure limit is
never checked; non-positive integer fields clamp to `0` in the `Nat`
model, which leaves the loop's `>=`-comparisons unchanged. -/
def uiStartGeneration (max_records max_failures : Int) (delay : Rat)
    (xUrlRaw yUrlRaw : String) (webFormat : Bool)
    (ragDomain ragFocus ragConstraint ragSkill ragLanguages : String) :
    Option GeneratorConfig :=
  let xUrl := pyStrip xUrlRaw
  let yUrl := pyStrip yUrlRaw
  if max_records ≤ 0 then none
  else if delay < 0 then none
  else if xUrl = "" ∨ yUrl = "" then none
  else if ragDomain = "" ∨ ragFocus = "" ∨ ragConstraint = "" ∨ ragSkill = "" ∨ ragLanguages = "" then none
  else some
    { max_records := max_records.toNat
      max_consecutive_failures := max_failures.toNat
      model_x_url := xUrl
      model_y_url := yUrl
      delay_between_records := delay
      rag_domain := ragDomain
      rag_focus := ragFocus
      rag_constraint := ragConstraint
      rag_skill_level := ragSkill
      rag_languages := ragLanguages
      web_format := webFormat }

/-- If the record limit is already reached, the loop condition fails at
once and the run completes with no further stage-1 call. -/
theorem runLoop_completed (cfg : GeneratorConfig) (orc : Nat → IterOracle)
    (fuel i : Nat) (t f : Nat) (ht : cfg.max_records ≤ t) :
    runLoop cfg orc (fuel + 1) i ⟨t, f, true⟩ = ⟨t, f, .completed, 0⟩ := by
  simp [runLoop, ht]

/-- Against a stage-1 pipeline that always fails, the loop started at
failure count `f` below the limit performs limit-minus-`f` further
stage-1 attempts, persists nothing, and exits via the
failure-limit break. -/
theorem runLoop_alwaysFail (cfg : GeneratorConfig) (orc : Nat → IterOracle)
    (hfail : ∀ i, (orc i).intentOk = false) :
    ∀ fuel i f, f < cfg.max_consecutive_failures → 0 < cfg.max_records →
      cfg.max_consecutive_failures - f ≤ fuel →
      runLoop cfg orc fuel i ⟨0, f, true⟩ =
        ⟨0, cfg.max_consecutive_failures, .aborted, cfg.max_consecutive_failures - f⟩ := by
  intro fuel
  induction fuel with
  | zero => intro i f hf _ hfuel; omega
  | succ fuel ih =>
    intro i f hf hm hfuel
    have hm2 : ¬ (cfg.max_records ≤ 0) := by omega
    rcases Nat.lt_or_ge (f + 1) cfg.max_consecutive_failures with hlt | hge
    · have hstep : runStep cfg (orc i) ⟨0, f, true⟩ =
          .next ⟨0, f + 1, true⟩ .retryBackoff := by
        simp [runStep, hfail i, Nat.not_le.mpr hlt]
      have hrec := ih (i + 1) (f + 1) hlt hm (by omega)
      simp only [runLoop, hm2, if_false, hstep]
      simp [hrec]
      omega
    · have hk : cfg.max_consecutive_failures = f + 1 := by omega
      have hstep : runStep cfg (orc i) ⟨0, f, true⟩ =
          .aborted ⟨0, f + 1, true⟩ := by
        simp [runStep, hfail i, hge]
      simp only [runLoop, hm2, if_false, hstep]
      simp [hk]

/-- Against an always-succeeding pipeline, the loop started at `t`
records below the limit persists one record per iteration until the
limit is reached and completes with the failure counter at zero. -/
theorem runLoop_alwaysSucceed (cfg : GeneratorConfig) (orc : Nat → IterOracle)
    (hsucc : ∀ i, (orc i).intentOk = true ∧ (orc i).solutionOk = true ∧ (orc i).savePath ≠ "") :
    ∀ fuel i t f, t < cfg.max_records → cfg.max_records - t < fuel →
      runLoop cfg orc fuel i ⟨t, f, true⟩ =
        ⟨cfg.max_records, 0, .completed, cfg.max_records - t⟩ := by
  intro fuel
  induction fuel with
  | zero => intro i t f ht hfuel; omega
  | succ fuel ih =>
    intro i t f ht hfuel
    have hm2 : ¬ (cfg.max_records ≤ t) := by omega
    obtain ⟨hx, hy, hs⟩ := hsucc i
    have hstep : runStep cfg (orc i) ⟨t, f, true⟩ =
        .next ⟨t + 1, 0, true⟩
          (if t + 1 < cfg.max_records then .interRecordDelay else .noWait) := by
      simp [runStep, hx, hy, hs]
      split <;> simp_all
    rcases Nat.lt_or_ge (t + 1) cfg.max_records with hlt | hge
    · have hrec := ih (i + 1) (t + 1) 0 hlt (by omega)
      simp only [runLoop, hm2, if_false, hstep]
      simp [hrec]
      omega
    · have hT : cfg.max_records = t + 1 := by omega
      obtain ⟨fuel2, rfl⟩ : ∃ fuel2, fuel = fuel2 + 1 := ⟨fuel - 1, by omega⟩
      have hrec := runLoop_completed cfg orc fuel2 (i + 1) (t + 1) 0 hge
      simp only [runLoop, hm2, if_false, hstep]
      simp [hrec, hT]

/-- C1: for every configuration with consecutive-failure limit `k >= 1`
(and a positive record limit, as the configuration invariants require),
running the engine against a stage-1 pipeline that always yields no
intent performs exactly `k` stage-1 attempts, drives the
consecutive-failure counter to `k`, leaves the loop through the
failure-limit break (`Aborted`), and persists zero records. -/
theorem c1_stage1_always_fails_aborts (cfg : GeneratorConfig) (orc : Nat → IterOracle)
    (hfail : ∀ i, (orc i).intentOk = false)
    (hk : 1 ≤ cfg.max_consecutive_failures) (hm : 1 ≤ cfg.max_records)
    (fuel : Nat) (hfuel : cfg.max_consecutive_failures ≤ fuel) :
    runLoop cfg orc fuel 0 initState =
      ⟨0, cfg.max_consecutive_failures, .aborted, cfg.max_consecutive_failures⟩ := by
  have h := runLoop_alwaysFail cfg orc hfail fuel 0 0 (by omega) (by omega) (by omega)
  simpa [initState] using h

/-- A small valid configuration used by the concrete instantiations. -/
def cfgW1 : GeneratorConfig := { max_records := 5, max_consecutive_failures := 3 }

/-- A pipeline oracle whose stage 1 always fails. -/
def orcW1 : Nat → IterOracle := fun _ => ⟨false, false, ""⟩

/-- C1 witness: with record limit 5 and failure limit 3, the
always-failing run aborts after exactly 3 stage-1 attempts with zero
records. -/
theorem c1_witness :
    runLoop cfgW1 orcW1 10 0 initState = ⟨0, 3, .aborted, 3⟩ :=
  c1_stage1_always_fails_aborts cfgW1 orcW1 (fun _ => rfl) (by decide) (by decide) 10 (by decide)

/-- C2: for every configuration with record limit `n >= 1`, running the
engine with both stages and the save always succeeding terminates with
exactly `n` persisted records, the `Completed` outcome, and `n` loop
iterations — one persisted record per iteration. -/
theorem c2_always_succeeding_completes (cfg : GeneratorConfig) (orc : Nat → IterOracle)
    (hsucc : ∀ i, (orc i).intentOk = true ∧ (orc i).solutionOk = true ∧ (orc i).savePath ≠ "")
    (hn : 1 ≤ cfg.max_records) (fuel : Nat) (hfuel : cfg.max_records < fuel) :
    runLoop cfg orc fuel 0 initState =
      ⟨cfg.max_records, 0, .completed, cfg.max_records⟩ := by
  have h := runLoop_alwaysSucceed cfg orc hsucc fuel 0 0 0 (by omega) (by omega)
  simpa [initState] using h

/-- A pipeline oracle for which every call and every save succeeds. -/
def orcW2 : Nat → IterOracle := fun _ => ⟨true, true, "rag_data/record_x.json"⟩

/-- C2 witness: with record limit 5, the always-succeeding run
completes with exactly 5 records in 5 iterations. -/
theorem c2_witness :
    runLoop cfgW1 orcW2 10 0 initState = ⟨5, 0, .completed, 5⟩ :=
  c2_always_succeeding_completes cfgW1 orcW2
    (fun _ => ⟨rfl, rfl, show ("rag_data/record_x.json" : String) ≠ "" by decide⟩)
    (by decide) 10 (by decide)

/-- C3: in every running state, an iteration that persists a record
sets the consecutive-failure counter to exactly zero — whatever its
prior value — and increments the record count by one, while every
failing iteration (stage-1 failure, stage-2 failure, or save failure)
increments the counter by exactly one and persists nothing. -/
theorem c3_success_resets_failure_increments (cfg : GeneratorConfig) (o : IterOracle)
    (s : RunState) (hrun : s.running = true) :
    (o.intentOk = true → o.solutionOk = true → o.savePath ≠ "" →
      (runStep cfg o s).state.consecutive_failures = 0
      ∧ (runStep cfg o s).state.total_records = s.total_records + 1)
    ∧ (¬(o.intentOk = true ∧ o.solutionOk = true ∧ o.savePath ≠ "") →
      (runStep cfg o s).state.consecutive_failures = s.consecutive_failures + 1
      ∧ (runStep cfg o s).state.total_records = s.total_records) := by
  constructor
  · intro hx hy hs
    by_cases hrem : s.total_records + 1 < cfg.max_records <;>
      simp [runStep, hrun, hx, hy, hs, hrem, StepResult.state]
  · intro hfailAny
    by_cases hx : o.intentOk = true
    · by_cases hy : o.solutionOk = true
      · have hsv : o.savePath = "" := by
          by_contra hne
          exact hfailAny ⟨hx, hy, hne⟩
        by_cases hcap : cfg.max_consecutive_failures ≤ s.consecutive_failures + 1 <;>
          by_cases hrem : s.total_records < cfg.max_records <;>
            simp [runStep, hrun, hx, hy, hsv, hcap, hrem, StepResult.state]
      · replace hy : o.solutionOk = false := by simpa using hy
        by_cases hcap : cfg.max_consecutive_failures ≤ s.consecutive_failures + 1 <;>
          simp [runStep, hrun, hx, hy, hcap, StepResult.state]
    · replace hx : o.intentOk = false := by simpa using hx
      by_cases hcap : cfg.max_consecutive_failures ≤ s.consecutive_failures + 1 <;>
        simp [runStep, hrun, hx, hcap, StepResult.state]

/-- C3 witness: a successful iteration after 2 prior consecutive
failures (limit 3) resets the counter to zero and persists the fifth
record. -/
theorem c3_witness :
    (runStep cfgW1 ⟨true, true, "p"⟩ ⟨4, 2, true⟩).state.consecutive_failures = 0
    ∧ (runStep cfgW1 ⟨true, true, "p"⟩ ⟨4, 2, true⟩).state.total_records = 5 :=
  (c3_success_resets_failure_increments cfgW1 ⟨true, true, "p"⟩ ⟨4, 2, true⟩ rfl).1 rfl rfl
    (show ("p" : String) ≠ "" by decide)

/-- The configuration used by the C9 instantiations: inter-record
delay of 1 second. -/
def cfgW9 : GeneratorConfig :=
  { max_records := 5, max_consecutive_failures := 3, delay_between_records := 1 }

/-- C9 counterexample: a stage-1 failure is followed by the fixed
2-second retry backoff, but a save failure (empty path) falls through
to the configured inter-record delay instead — the two iterations
leave the same state yet wait differently, so the save failure is not
followed by the same short retry backoff the claim asserts. -/
theorem c9_counterexample :
    runStep cfgW9 ⟨false, true, "p"⟩ initState = .next ⟨0, 1, true⟩ .retryBackoff
    ∧ runStep cfgW9 ⟨true, true, ""⟩ initState = .next ⟨0, 1, true⟩ .interRecordDelay
    ∧ WaitKind.interRecordDelay ≠ WaitKind.retryBackoff
    ∧ waitDuration cfgW9 .interRecordDelay ≠ waitDuration cfgW9 .retryBackoff := by
  exact ⟨by decide, by decide, by decide, by decide⟩

/-- C9 (amended): a save failure increments the consecutive-failure
counter and checks it against the limit exactly as a stage failure
does — aborting when the limit is reached — but below the limit the
iteration proceeds through the configured inter-record delay (or no
wait once the limit on records is reached), not through the 2-second
retry backoff used after stage failures. -/
theorem c9_save_failure_increments_checks_delays (cfg : GeneratorConfig) (o : IterOracle)
    (s : RunState) (hrun : s.running = true) (hx : o.intentOk = true)
    (hy : o.solutionOk = true) (hs : o.savePath = "") :
    (cfg.max_consecutive_failures ≤ s.consecutive_failures + 1 →
      runStep cfg o s = .aborted { s with consecutive_failures := s.consecutive_failures + 1 })
    ∧ (s.consecutive_failures + 1 < cfg.max_consecutive_failures →
      runStep cfg o s = .next { s with consecutive_failures := s.consecutive_failures + 1 }
        (if s.total_records < cfg.max_records then .interRecordDelay else .noWait)) := by
  constructor
  · intro hcap
    simp [runStep, hrun, hx, hy, hs, hcap]
  · intro hcap
    have hcap2 : ¬ (cfg.max_consecutive_failures ≤ s.consecutive_failures + 1) := by omega
    by_cases hrem : s.total_records < cfg.max_records <;>
      simp [runStep, hrun, hx, hy, hs, hcap2, hrem]

/-- C9 witness: a first save failure under limit 3 increments the
counter to 1 and proceeds through the inter-record delay. -/
theorem c9_witness :
    runStep cfgW9 ⟨true, true, ""⟩ ⟨0, 0, true⟩ = .next ⟨0, 1, true⟩ .interRecordDelay := by
  have h := (c9_save_failure_increments_checks_delays cfgW9 ⟨true, true, ""⟩ ⟨0, 0, true⟩
    rfl rfl rfl rfl).2 (by decide)
  simpa using h

/-- C8: the text-extraction-and-repair function is total and, whichever
outcome the embedded parse attempt yields — in particular an
invalid-escape failure, for which the repair stub changes nothing — it
returns the stripped-and-sliced candidate text unmodified, leaving the
caller's own parse attempt to fail with a reportable error. -/
theorem c8_clean_total_and_returns_candidate :
    (∀ parse s, cleanJsonString parse s = extractCandidate s)
    ∧ (∀ parse s, parse (extractCandidate s) = ParseOutcome.escapeError →
        cleanJsonString parse s = extractCandidate s) := by
  constructor
  · intro parse s
    cases h : parse (extractCandidate s) <;> simp [cleanJsonString, h]
  · intro parse s _
    cases h : parse (extractCandidate s) <;> simp [cleanJsonString, h]

/-- A JSON-like text whose only parse obstacle is the invalid escape
sequence in its string value. -/
def c8Bad : String := "\x7b\"a\": \"b\\qc\"\x7d"

/-- C8 witness: on a text with an invalid escape whose parse attempt
reports an escape error, the function returns the text unmodified. -/
theorem c8_witness : cleanJsonString (fun _ => ParseOutcome.escapeError) c8Bad = c8Bad := by
  have h := c8_clean_total_and_returns_candidate.2 (fun _ => ParseOutcome.escapeError) c8Bad rfl
  rw [h]
  decide

/-- Every key accepted by `validate_json` is present with a truthy
value whose `str()` rendering is non-empty after stripping. -/
theorem validateJson_key (data : List (String × JValue)) (keys : List String)
    (hv : validateJson data keys = true) (k : String) (hk : k ∈ keys) :
    ∃ v, pyLookup k data = some v ∧ pythonTruthy v = true ∧ pyStrip (pythonStr v) ≠ "" := by
  have hall := List.all_eq_true.mp hv k hk
  cases hl : pyLookup k data with
  | none => rw [hl] at hall; simp at hall
  | some v =>
    rw [hl] at hall
    simp at hall
    exact ⟨v, rfl, hall.1, hall.2⟩

/-- C6 (amended): whenever the ideation stage returns an intent, both
required keys are present with Python-truthy values; the intent text,
when a string, is non-empty after trimming, and the tag list is
non-empty — but individual tags are never inspected (the source checks
`str(tags).strip()`, which is non-empty for any non-empty list), so a
returned tag may be empty after trimming. -/
theorem c6_amended_intent_invariant (parse : String → Option (List (String × JValue)))
    (escErr : String → Bool) (response : Option String) (d : List (String × JValue))
    (h : callModelX parse escErr response = some d) :
    (pyLookup "raw_intent" d).isSome ∧ (pyLookup "tags" d).isSome
    ∧ (∀ s, pyLookup "raw_intent" d = some (JValue.jstr s) → pyStrip s ≠ "")
    ∧ (∀ l, pyLookup "tags" d = some (JValue.jstrlist l) → l ≠ []) := by
  have hv : validateJson d ["raw_intent", "tags"] = true := by
    cases response with
    | none => simp [callModelX] at h
    | some r =>
      simp only [callModelX] at h
      cases hp : parse (cleanJsonString (parseOutcomeOf parse escErr) (extractFenced r)) with
      | none => rw [hp] at h; simp at h
      | some data =>
        rw [hp] at h
        by_cases hval : validateJson data ["raw_intent", "tags"] = true
        · simp [hval] at h
          rw [← h]
          exact hval
        · simp [hval] at h
  obtain ⟨v1, hl1, ht1, hs1⟩ := validateJson_key d ["raw_intent", "tags"] hv "raw_intent" (by simp)
  obtain ⟨v2, hl2, ht2, hs2⟩ := validateJson_key d ["raw_intent", "tags"] hv "tags" (by simp)
  refine ⟨by simp [hl1], by simp [hl2], ?_, ?_⟩
  · intro s hs
    rw [hl1] at hs
    cases hs
    simpa [pythonStr] using hs1
  · intro l hl
    rw [hl2] at hl
    cases hl
    simpa [pythonTruthy] using ht2

/-- A model response carrying a well-formed JSON object whose `tags`
array contains one empty string. -/
def c6BadResponse : String := "\x7b\"raw_intent\": \"x\", \"tags\": [\"\"]\x7d"

/-- The parse of `c6BadResponse` (what `json.loads` yields on it). -/
def c6BadDict : List (String × JValue) :=
  [("raw_intent", JValue.jstr "x"), ("tags", JValue.jstrlist [""])]

/-- The `json.loads` oracle on the texts reachable from
`c6BadResponse`. -/
def c6Parse : String → Option (List (String × JValue)) :=
  fun s => if s = c6BadResponse then some c6BadDict else none

set_option maxRecDepth 10000 in
/-- C6 counterexample: the ideation stage accepts and returns a parsed
object whose `tags` list consists of a single empty string — a tag
that is empty after trimming — because `validate_json` only inspects
`str(tags).strip()`, which renders as a non-empty bracketed list. -/
theorem c6_counterexample :
    callModelX c6Parse (fun _ => false) (some c6BadResponse) = some c6BadDict
    ∧ pyLookup "tags" c6BadDict = some (JValue.jstrlist [""])
    ∧ pyStrip "" = "" := by
  exact ⟨by decide, by decide, by decide⟩

/-- A model response carrying a well-formed, fully valid JSON object. -/
def c6GoodResponse : String := "\x7b\"raw_intent\": \"hello\", \"tags\": [\"a\"]\x7d"

/-- The parse of `c6GoodResponse`. -/
def c6GoodDict : List (String × JValue) :=
  [("raw_intent", JValue.jstr "hello"), ("tags", JValue.jstrlist ["a"])]

/-- The `json.loads` oracle on the texts reachable from
`c6GoodResponse`. -/
def c6ParseGood : String → Option (List (String × JValue)) :=
  fun s => if s = c6GoodResponse then some c6GoodDict else none

set_option maxRecDepth 10000 in
/-- C6 witness: the amended invariant instantiated on a concrete
accepted response. -/
theorem c6_witness :
    (pyLookup "raw_intent" c6GoodDict).isSome ∧ (pyLookup "tags" c6GoodDict).isSome
    ∧ (∀ s, pyLookup "raw_intent" c6GoodDict = some (JValue.jstr s) → pyStrip s ≠ "")
    ∧ (∀ l, pyLookup "tags" c6GoodDict = some (JValue.jstrlist l) → l ≠ []) :=
  c6_amended_intent_invariant c6ParseGood (fun _ => false) (some c6GoodResponse) c6GoodDict
    (by decide)

/-- A configuration violating the stated constraints: consecutive-failure
limit zero. -/
def c7BadConfig : GeneratorConfig := { max_consecutive_failures := 0 }

/-- C7 counterexample: constructing the engine with a configuration
whose failure limit is zero succeeds — the constructor stores the
config and zeroes the counters, performing no validation — and even
the UI start path accepts such a configuration (it never checks the
failure limit) and proceeds to construct the engine and start the
run. -/
theorem c7_counterexample :
    ragGeneratorInit c7BadConfig =
      { config := c7BadConfig, consecutive_failures := 0, total_records := 0, running := false }
    ∧ uiStartGeneration 1000 0 1 "http://x" "http://y" false "d" "f" "c" "s" "l"
        = some { max_records := 1000, max_consecutive_failures := 0, model_x_url := "http://x",
                 model_y_url := "http://y", delay_between_records := 1, rag_domain := "d",
                 rag_focus := "f", rag_constraint := "c", rag_skill_level := "s",
                 rag_languages := "l", web_format := false } := by
  exact ⟨rfl, by decide⟩

/-- C7 (amended): the engine constructor itself never rejects a
configuration; the rejection happens in the UI controller before
construction, which refuses to start exactly when the record limit is
non-positive, the delay negative, a stripped endpoint URL empty, or a
domain-shaping string empty — the failure limit is not checked, and
the CLI path performs no validation at all. -/
theorem c7_amended_ui_checks (mr mf : Int) (delay : Rat) (xu yu : String) (wf : Bool)
    (d f c s l : String) :
    uiStartGeneration mr mf delay xu yu wf d f c s l = none ↔
      (mr ≤ 0 ∨ delay < 0 ∨ pyStrip xu = "" ∨ pyStrip yu = ""
        ∨ d = "" ∨ f = "" ∨ c = "" ∨ s = "" ∨ l = "") := by
  simp only [uiStartGeneration]
  split_ifs with h1 h2 h3 h4
  · exact iff_of_true rfl (Or.inl h1)
  · exact iff_of_true rfl (Or.inr (Or.inl h2))
  · exact iff_of_true rfl (Or.inr (Or.inr (h3.imp id Or.inl)))
  · exact iff_of_true rfl (Or.inr (Or.inr (Or.inr (Or.inr h4))))
  · constructor
    · intro hx
      simp at hx
    · intro hx
      rcases hx with hx | hx | hx | hx | hx
      · exact absurd hx h1
      · exact absurd hx h2
      · exact absurd (Or.inl hx) h3
      · exact absurd (Or.inr hx) h3
      · exact absurd hx h4

/-- C7 witness: the UI controller refuses to start on a non-positive
record limit. -/
theorem c7_witness :
    uiStartGeneration 0 3 1 "u" "u" false "d" "f" "c" "s" "l" = none :=
  (c7_amended_ui_checks 0 3 1 "u" "u" false "d" "f" "c" "s" "l").mpr (Or.inl (by decide))

/-- The escaping test input `<script>&"'</script>`. -/
def escInput : String := "<script>&\"" ++ apoStr ++ "</script>"

/-- The output the source's escaping produces on `escInput`. -/
def escExpected : String := "&lt;script&gt;&amp;&quot;&#x27;&lt;/script&gt;"

/-- C5 counterexample: the escaped form of `<script>&"'</script>`
does contain the raw ampersand character — every produced entity
starts with one — so the claim that none of the five raw characters
appear is false for the ampersand. -/
theorem c5_counterexample : (Char.ofNat 38) ∈ (escapeHtml escInput).data := by decide

/-- C5 (amended): escaping `<script>&"'</script>` yields exactly
`&lt;script&gt;&amp;&quot;&#x27;&lt;/script&gt;`, a string containing
none of the four raw characters `<`, `>`, `"`, `'`; raw ampersands
remain, but only as the leading characters of the five escape
entities. -/
theorem c5_amended_escape_output :
    escapeHtml escInput = escExpected
    ∧ (∀ c ∈ escExpected.data, ¬(c = '<' ∨ c = '>' ∨ c = '"' ∨ c = apoc)) := by decide

/-- A record whose single tag is a raw script element, as the model
could emit it. -/
def c4Record : HtmlRecord :=
  { raw_intent := "Req text", code_snippet := "code here", description := "desc.",
    tags := ["<script>alert(1)</script>"] }

set_option maxRecDepth 400000 in
/-- C4: the rendered page for `c4Record` contains the raw, unescaped
tag text — while the escaping function would have altered it — because
the `tags_html` spans (and the keywords meta content) interpolate each
tag without passing it through `_escape_html`; so not every
user-supplied string reaching the document goes through the escaping
function, falsifying the claim. -/
theorem c4_tags_inserted_unescaped :
    pyContains (generateHtmlPage "01/01/2026 alle 10:00" c4Record "My Title")
      "<script>alert(1)</script>" = true
    ∧ escapeHtml "<script>alert(1)</script>" ≠ "<script>alert(1)</script>"
    ∧ tagsHtmlOf ["<script>alert(1)</script>"]
        = "<div class=\"tags\"><span class=\"tag\"><script>alert(1)</script></span></div>" := by
  refine ⟨by decide, by decide, by decide⟩

/-- The record of the concrete slug example. -/
def c10Record : HtmlRecord :=
  { raw_intent := "Build a login form. It must validate input.",
    code_snippet := "", description := "", tags := [] }

/-- C10: the regex `[^\w\s-]` keeps underscores (they are word
characters), contradicting both the claim and the source's own comment
that only alphanumerics, spaces, and hyphens survive: the title `a_b`
yields the slug `a_b`, which contains a character that is not a
lowercase letter, digit, or hyphen.  The claim's concrete example does
hold: the intent text derives the title `Build a login form` and the
slug `build-a-login-form`. -/
theorem c10_underscore_survives :
    createSafeFilename "a_b" = "a_b"
    ∧ '_' ∈ (createSafeFilename "a_b").data
    ∧ generateTitle "TS" c10Record = "Build a login form"
    ∧ createSafeFilename "Build a login form" = "build-a-login-form" := by decide
